import Mathlib

/-!
# Verification of the card-game backend (`app.py`)

Shallow embedding of the two-player round-based card game server
(`src/app.py`, Flask + SQLAlchemy + SocketIO).  The embedding models the
per-game state (the `Game`, `GamePlayer`, `Player` and `Move` rows that
belong to one game) and the two state-changing operations `join_game` and
`play_card` exactly as the Python code performs them.

Modelling decisions, each noted at the definition it concerns:
* the database stores a hand as a comma-separated string and the code
  converts with `hand_to_list` / `list_to_hand` at every access; since every
  write goes through `list_to_hand` and every read through `hand_to_list`,
  the state carries the parsed list (the entries are card codes, which are
  nonempty, comma-free and whitespace-free, so the round trip is lossless);
* `random.shuffle(deck)` is modelled by passing the shuffled deck as an
  explicit argument; theorems quantify over any permutation of `create_deck`;
* the WebSocket `socketio.emit` calls are pure notifications with no effect
  on the database state and are not modelled;
* the `Game.query.get(game_id)` existence check is route-level: the state
  type models one existing game, so the `game not found` branch does not
  arise.
-/

namespace CardGame

/-- `create_deck()` from app.py: the 52 rank–suit codes, suits outer loop,
ranks inner loop (`[r + s for s in suits for r in ranks]`). -/
def create_deck : List String :=
  let ranks := ["2", "3", "4", "5", "6", "7", "8", "9", "10", "J", "Q", "K", "A"]
  let suits := ["H", "D", "C", "S"]
  suits.flatMap (fun s => ranks.map (fun r => r ++ s))

/-- Python `int(s)` on the digit strings that occur as numeric card ranks
("2".."10").  Other inputs raise `ValueError` in Python and never occur on
the reached branch; they are given the junk value of the same fold here. -/
def py_int (s : String) : Nat :=
  s.data.foldl (fun n c => 10 * n + (c.toNat - 48)) 0

/-- `card_value(card_code)` from app.py: rank is everything except the last
character (`card_code[:-1]`); J/Q/K/A map to 11–14, otherwise `int(rank)`. -/
def card_value (card_code : String) : Int :=
  let rank : String := ⟨card_code.data.dropLast⟩
  if rank = "J" then 11
  else if rank = "Q" then 12
  else if rank = "K" then 13
  else if rank = "A" then 14
  else (py_int rank : Nat)

/-- Python `str.strip()` on a character list: drop whitespace from both
ends. -/
def strip_chars (l : List Char) : List Char :=
  ((l.dropWhile Char.isWhitespace).reverse.dropWhile Char.isWhitespace).reverse

/-- Normalisation applied to the `card_code` field of a play request:
`(data.get("card_code") or "").strip().upper()`.  `strip` and ASCII
uppercasing are written over the character list so they compute by kernel
reduction. -/
def normalize_card (s : String) : String :=
  ⟨(strip_chars s.data).map Char.toUpper⟩

/-- A `Player` row: primary key, name, cumulative score (`db.Integer`,
default 0, only ever incremented by round wins). -/
structure PlayerRec where
  pid : Nat
  name : String
  score : Int
deriving Repr, DecidableEq

/-- A `GamePlayer` row (a seat) of the modelled game: the bound player id,
the hand (stored comma-separated in the DB, carried here as the parsed
`hand_to_list` image), and the pending `played_card` (`nullable`). -/
structure GamePlayer where
  player_id : Nat
  hand : List String
  played_card : Option String
deriving Repr, DecidableEq

/-- A `Move` row of the modelled game: player, round number at play time,
and the (normalised) card code.  Append-only log. -/
structure MoveRec where
  player_id : Nat
  round_number : Int
  card_code : String
deriving Repr, DecidableEq

/-- The state of one game: the `Game` row's fields plus the `GamePlayer`,
`Player` and `Move` rows that concern it, each list in primary-key
(insertion) order, which is the order the `query.all()` calls return. -/
structure GameState where
  status : String
  current_round : Int
  winner_id : Option Nat
  seats : List GamePlayer
  players : List PlayerRec
  moves : List MoveRec
deriving Repr, DecidableEq

/-- Python truthiness of the `played_card` column (`if gp.played_card:`):
`None` and the empty string are falsy, any other string truthy. -/
def truthy : Option String → Bool
  | none => false
  | some s => s ≠ ""

/-- `Player.query.get(pid)`: primary-key lookup in the players table. -/
def findPlayer (ps : List PlayerRec) (pid : Nat) : Option PlayerRec :=
  ps.find? (fun p => p.pid == pid)

/-- `GamePlayer.query.filter_by(game_id=..., player_id=pid).first()`:
first seat row bound to `pid`. -/
def findSeat (seats : List GamePlayer) (pid : Nat) : Option GamePlayer :=
  seats.find? (fun gp => gp.player_id == pid)

/-- Mutating the seat row returned by `.first()`: the first row whose
`player_id` matches is replaced by its image under `f`; later rows are
untouched. -/
def updateSeat : List GamePlayer → Nat → (GamePlayer → GamePlayer) → List GamePlayer
  | [], _, _ => []
  | gp :: rest, pid, f =>
      if gp.player_id == pid then f gp :: rest
      else gp :: updateSeat rest pid f

/-- `wp = Player.query.get(winner); if wp: wp.score += 1`: increment the
score of the row with primary key `w`; no-op when absent. -/
def incScore : List PlayerRec → Nat → List PlayerRec
  | [], _ => []
  | p :: ps, w =>
      if p.pid == w then { p with score := p.score + 1 } :: ps
      else p :: incScore ps w

/-- Outcome of `POST /games/<id>/join` (the HTTP body / code each branch
returns).  The route-level `game not found` check is outside this model. -/
inductive JoinResult
  | playerNotFound
  | alreadyJoined
  | gameFull
  | joined
deriving Repr, DecidableEq

/-- `join_game` from app.py, for the modelled game.  `shuffled_deck` stands
for the result of `deck = create_deck(); random.shuffle(deck)`; the dealt
hand is `deck[:5]`.  The branches follow the source order: player existence,
already-joined idempotence, the two-seat cap, then seat creation (appended,
as a fresh primary key sorts last) and the `waiting → in_progress`
transition when this is the second seat. -/
def join_game (s : GameState) (player_id : Nat) (shuffled_deck : List String) :
    JoinResult × GameState :=
  match findPlayer s.players player_id with
  | none => (JoinResult.playerNotFound, s)
  | some _ =>
    match findSeat s.seats player_id with
    | some _ => (JoinResult.alreadyJoined, s)
    | none =>
      let count := s.seats.length
      if 2 ≤ count then (JoinResult.gameFull, s)
      else
        let hand_cards := shuffled_deck.take 5
        let gp : GamePlayer :=
          { player_id := player_id, hand := hand_cards, played_card := none }
        let status' := if count = 1 then "in_progress" else s.status
        (JoinResult.joined,
          { s with seats := s.seats ++ [gp], status := status' })

/-- Outcome of `POST /games/<id>/play`: the error branches, the
`"card played, waiting opponent..."` acknowledgment, and the round-result
payload `{winner, round, values}` (values keyed by player id, in the order
`played[0], played[1]`). -/
inductive PlayResult
  | seatNotFound
  | gameNotActive
  | alreadyPlayed
  | cardNotInHand
  | waiting
  | resolved (winner : Option Nat) (round : Int) (values : List (Nat × Int))
deriving Repr, DecidableEq

/-- `play_card` from app.py, for the modelled game.  Every error branch
returns before any state mutation, so it carries the state unchanged.
On success the acting seat's hand loses the card (`hand_cards.remove(card)`
removes the first occurrence, as `List.erase` does), `played_card` is set,
a `Move` is appended with the pre-resolution `current_round`, and — when the
re-read seat list now has two truthy `played_card`s — the round resolves:
`p1, p2 = played[0], played[1]` in seat (primary-key) order, strictly
greater `card_value` wins, the winner's `Player.score` increments,
`current_round` increments, status is set to `in_progress`, and the two
resolved rows' `played_card` are cleared.  `played_card.getD ""` models
reading the column that the `filter` guarantees non-null. -/
def play_card (s : GameState) (player_id : Nat) (raw_card : String) :
    PlayResult × GameState :=
  let card := normalize_card raw_card
  match findSeat s.seats player_id with
  | none => (PlayResult.seatNotFound, s)
  | some gp =>
    if ¬(s.status = "in_progress" ∨ s.status = "waiting") then
      (PlayResult.gameNotActive, s)
    else if truthy gp.played_card then
      (PlayResult.alreadyPlayed, s)
    else if card ∉ gp.hand then
      (PlayResult.cardNotInHand, s)
    else
      let seats1 := updateSeat s.seats player_id
        (fun x => { x with hand := x.hand.erase card, played_card := some card })
      let s1 : GameState :=
        { s with
          seats := seats1,
          moves := s.moves ++
            [{ player_id := player_id, round_number := s.current_round,
               card_code := card }] }
      match s1.seats.filter (fun x => truthy x.played_card) with
      | p1 :: p2 :: _ =>
        let v1 := card_value (p1.played_card.getD "")
        let v2 := card_value (p2.played_card.getD "")
        let winner : Option Nat :=
          if v1 > v2 then some p1.player_id
          else if v2 > v1 then some p2.player_id
          else none
        let players' :=
          match winner with
          | some w => incScore s1.players w
          | none => s1.players
        let round' := s.current_round + 1
        let clear : GamePlayer → GamePlayer :=
          fun x => { x with played_card := none }
        let seats2 :=
          updateSeat (updateSeat s1.seats p1.player_id clear) p2.player_id clear
        (PlayResult.resolved winner round'
            [(p1.player_id, v1), (p2.player_id, v2)],
          { s1 with
            players := players',
            current_round := round',
            status := "in_progress",
            seats := seats2 })
      | _ => (PlayResult.waiting, s1)

-- sanity checks on concrete values
example : create_deck.length = 52 := by decide
example : card_value "AS" = 14 := by decide
example : card_value "10C" = 10 := by decide
example : card_value "QH" = 12 := by decide
example : normalize_card "  as " = "AS" := by decide

/-! ## Helper lemmas about the row-update operations -/

/-- `updateSeat` never changes the number of seat rows. -/
theorem updateSeat_length (ss : List GamePlayer) (pid : Nat)
    (f : GamePlayer → GamePlayer) :
    (updateSeat ss pid f).length = ss.length := by
  induction ss with
  | nil => rfl
  | cons a l ih =>
      simp only [updateSeat]
      by_cases h : (a.player_id == pid) = true
      · simp [h]
      · simp [h, ih]

/-- A seat row bound to a different player survives `updateSeat`
unchanged. -/
theorem mem_updateSeat_of_ne {ss : List GamePlayer} {pid : Nat}
    {f : GamePlayer → GamePlayer} {x : GamePlayer}
    (hx : x ∈ ss) (hne : x.player_id ≠ pid) :
    x ∈ updateSeat ss pid f := by
  induction ss with
  | nil => cases hx
  | cons a l ih =>
      simp only [updateSeat]
      by_cases h : (a.player_id == pid) = true
      · have hax : x ≠ a := by
          intro he
          exact hne (he ▸ (beq_iff_eq.mp h))
        rcases List.mem_cons.mp hx with rfl | hxl
        · exact absurd rfl hax
        · simp [h, List.mem_cons, hxl]
      · rcases List.mem_cons.mp hx with rfl | hxl
        · simp [h]
        · simp [h, ih hxl]

/-- Looking the same player up again after `updateSeat` returns the updated
row, provided the update keeps the `player_id` column. -/
theorem findSeat_updateSeat {ss : List GamePlayer} {pid : Nat}
    {f : GamePlayer → GamePlayer} {gp : GamePlayer}
    (hpres : ∀ x, (f x).player_id = x.player_id)
    (hfind : findSeat ss pid = some gp) :
    findSeat (updateSeat ss pid f) pid = some (f gp) := by
  induction ss with
  | nil => simp [findSeat] at hfind
  | cons a l ih =>
      simp only [findSeat, List.find?] at hfind
      by_cases h : (a.player_id == pid) = true
      · simp only [h] at hfind
        cases hfind
        simp [updateSeat, findSeat, List.find?, h, hpres]
      · simp only [h] at hfind
        have hrec := ih hfind
        simp only [findSeat] at hrec
        simp [updateSeat, findSeat, List.find?, h, hrec]

/-- When no seat of `ss` has a truthy pending card, updating the found seat
to a truthy one makes it the sole element surviving the
`filter_by`-style truthiness filter. -/
theorem filter_truthy_updateSeat {ss : List GamePlayer} {pid : Nat}
    {f : GamePlayer → GamePlayer} {gp : GamePlayer}
    (hall : ∀ x ∈ ss, truthy x.played_card = false)
    (hfind : findSeat ss pid = some gp)
    (ht : truthy (f gp).played_card = true) :
    (updateSeat ss pid f).filter (fun x => truthy x.played_card) = [f gp] := by
  induction ss with
  | nil => simp [findSeat] at hfind
  | cons a l ih =>
      simp only [findSeat, List.find?] at hfind
      by_cases h : (a.player_id == pid) = true
      · simp only [h] at hfind
        cases hfind
        have hnil : l.filter (fun x => truthy x.played_card) = [] := by
          rw [List.filter_eq_nil_iff]
          intro x hx
          simp [hall x (List.mem_cons_of_mem _ hx)]
        simp [updateSeat, h, List.filter_cons, ht, hnil]
      · simp only [h] at hfind
        have ha : truthy a.played_card = false := hall a (List.mem_cons_self a l)
        have hrec := ih (fun x hx => hall x (List.mem_cons_of_mem _ hx)) hfind
        simp [updateSeat, h, List.filter_cons, ha, hrec]

/-- A fixed concrete two-seat game used to instantiate the theorems:
both players registered, both seated with dealt hands, round 1, no pending
play. -/
def demoState : GameState :=
  { status := "in_progress", current_round := 1, winner_id := none,
    seats := [{ player_id := 1, hand := ["AS", "KH", "7H"], played_card := none },
              { player_id := 2, hand := ["QD", "2S", "7D"], played_card := none }],
    players := [{ pid := 1, name := "P1", score := 0 },
                { pid := 2, name := "P2", score := 0 }],
    moves := [] }

/-! ## Claim theorems -/

/-- C4: a play whose (normalised) card code is not in the seat's hand —
game and seat existing, game status active, no pending `played_card` —
fails with the card-not-in-hand error and returns the state exactly as it
was: hand, `played_card`, scores, `current_round` and the `Move` log are
untouched.  (The code compares the card after `strip().upper()`
normalisation, see C9; the hypothesis is on the normalised code.) -/
theorem play_cardNotInHand_frame (s : GameState) (pid : Nat) (raw : String)
    (gp : GamePlayer)
    (hfind : findSeat s.seats pid = some gp)
    (hstatus : s.status = "in_progress" ∨ s.status = "waiting")
    (hplayed : gp.played_card = none)
    (hmem : normalize_card raw ∉ gp.hand) :
    play_card s pid raw = (PlayResult.cardNotInHand, s) := by
  simp [play_card, hfind, hstatus, hplayed, truthy, hmem]

/-- Witness for C4 on `demoState`: player 1 tries to play `2H`, which is
not in their hand; the call errors and the state is returned unchanged. -/
theorem play_cardNotInHand_frame_witness :
    play_card demoState 1 "2H" = (PlayResult.cardNotInHand, demoState) :=
  play_cardNotInHand_frame demoState 1 "2H"
    { player_id := 1, hand := ["AS", "KH", "7H"], played_card := none }
    (by decide) (Or.inl (by decide)) (by decide) (by decide)

/-- C5: once a seat's `played_card` is set to a card (a nonempty code,
which is what a committed card always is), any further play by that seat —
while the game is in a playable status — fails with the
already-played-this-round error and changes nothing. -/
theorem play_alreadyPlayed_frame (s : GameState) (pid : Nat) (raw : String)
    (gp : GamePlayer) (c : String)
    (hfind : findSeat s.seats pid = some gp)
    (hstatus : s.status = "in_progress" ∨ s.status = "waiting")
    (hplayed : gp.played_card = some c) (hc : c ≠ "") :
    play_card s pid raw = (PlayResult.alreadyPlayed, s) := by
  simp [play_card, hfind, hstatus, hplayed, truthy, hc]

/-- Witness for C5: in `demoState` with player 1's `played_card` already
set to `AS`, a second play by player 1 fails and mutates nothing. -/
theorem play_alreadyPlayed_frame_witness :
    play_card
      { demoState with
        seats := [{ player_id := 1, hand := ["KH", "7H"], played_card := some "AS" },
                  { player_id := 2, hand := ["QD", "2S", "7D"], played_card := none }] }
      1 "KH" =
    (PlayResult.alreadyPlayed,
      { demoState with
        seats := [{ player_id := 1, hand := ["KH", "7H"], played_card := some "AS" },
                  { player_id := 2, hand := ["QD", "2S", "7D"], played_card := none }] }) :=
  play_alreadyPlayed_frame _ 1 "KH"
    { player_id := 1, hand := ["KH", "7H"], played_card := some "AS" } "AS"
    (by decide) (Or.inl (by decide)) (by decide) (by decide)

/-- `play_card` never creates or deletes seat rows: every branch either
returns the state unchanged or rewrites existing rows through
`updateSeat`. -/
theorem play_card_seats_length (s : GameState) (pid : Nat) (raw : String) :
    (play_card s pid raw).2.seats.length = s.seats.length := by
  unfold play_card
  cases hfs : findSeat s.seats pid with
  | none => rfl
  | some gp =>
    by_cases hst : ¬(s.status = "in_progress" ∨ s.status = "waiting")
    · simp [hst]
    · simp only [hst, if_false]
      by_cases hpl : truthy gp.played_card = true
      · simp [hpl]
      · simp only [hpl, if_false]
        by_cases hmem : normalize_card raw ∉ gp.hand
        · simp [hmem]
        · simp only [hmem, if_false]
          cases hflt : (updateSeat s.seats pid fun x =>
              { x with hand := x.hand.erase (normalize_card raw),
                       played_card := some (normalize_card raw) }).filter
              (fun x => truthy x.played_card) with
          | nil => simp [hflt, updateSeat_length]
          | cons p1 tl =>
            cases tl with
            | nil => simp [hflt, updateSeat_length]
            | cons p2 tl2 => simp [hflt, updateSeat_length]

/-- C7: a join on a game that already has two seats, by an existing player
who is not yet seated there, fails with the game-full error and creates no
seat (the state is returned unchanged); moreover every `join_game` call —
the only operation that creates seats — keeps the seat count at most 2. -/
theorem join_gameFull_and_capacity (s : GameState) (pid : Nat)
    (d : List String) (pl : PlayerRec)
    (hp : findPlayer s.players pid = some pl)
    (hseat : findSeat s.seats pid = none)
    (hlen : s.seats.length = 2) :
    join_game s pid d = (JoinResult.gameFull, s)
    ∧ (∀ (s' : GameState) (pid' : Nat) (d' : List String),
        s'.seats.length ≤ 2 → ((join_game s' pid' d').2).seats.length ≤ 2)
    ∧ ∀ (s' : GameState) (pid' : Nat) (raw' : String),
        s'.seats.length ≤ 2 → ((play_card s' pid' raw').2).seats.length ≤ 2 := by
  refine ⟨?_, ?_, ?_⟩
  · simp [join_game, hp, hseat, hlen]
  · intro s' pid' d' hle
    unfold join_game
    cases hfp : findPlayer s'.players pid' with
    | none => simpa using hle
    | some _ =>
      cases hfs : findSeat s'.seats pid' with
      | some _ => simpa using hle
      | none =>
        by_cases h2 : 2 ≤ s'.seats.length
        · simpa [h2] using hle
        · simp only [h2, if_false]
          simp only [List.length_append, List.length_cons, List.length_nil]
          omega
  · intro s' pid' raw' hle
    rw [play_card_seats_length]
    exact hle

/-- Witness for C7: a full two-seat game (`demoState`) rejects a join by a
third registered player (id 3), and the capacity bound holds. -/
theorem join_gameFull_and_capacity_witness :
    join_game
      { demoState with
        players := demoState.players ++ [{ pid := 3, name := "P3", score := 0 }] }
      3 create_deck =
    (JoinResult.gameFull,
      { demoState with
        players := demoState.players ++ [{ pid := 3, name := "P3", score := 0 }] })
    ∧ (∀ (s' : GameState) (pid' : Nat) (d' : List String),
        s'.seats.length ≤ 2 → ((join_game s' pid' d').2).seats.length ≤ 2)
    ∧ ∀ (s' : GameState) (pid' : Nat) (raw' : String),
        s'.seats.length ≤ 2 → ((play_card s' pid' raw').2).seats.length ≤ 2 :=
  join_gameFull_and_capacity _ 3 create_deck
    { pid := 3, name := "P3", score := 0 }
    (by decide) (by decide) (by decide)

/-- Characterisation of the waiting branch of `play_card`: when the seat
exists with no pending card, the game is in a playable status, the
normalised card is in the hand, and no seat of the game has a pending
(truthy) `played_card` before the call, the operation commits the hand
update, the `played_card` slot and the `Move` row, and returns the
waiting acknowledgment without touching anything else. -/
theorem play_card_waiting_eq (s : GameState) (pid : Nat) (raw : String)
    (gp : GamePlayer)
    (hfind : findSeat s.seats pid = some gp)
    (hstatus : s.status = "in_progress" ∨ s.status = "waiting")
    (hplayed : gp.played_card = none)
    (hmem : normalize_card raw ∈ gp.hand)
    (hc : normalize_card raw ≠ "")
    (hall : ∀ x ∈ s.seats, truthy x.played_card = false) :
    play_card s pid raw =
      (PlayResult.waiting,
       { s with
         seats := updateSeat s.seats pid
           (fun x => { x with hand := x.hand.erase (normalize_card raw),
                              played_card := some (normalize_card raw) }),
         moves := s.moves ++
           [{ player_id := pid, round_number := s.current_round,
              card_code := normalize_card raw }] }) := by
  have hfilter := filter_truthy_updateSeat
    (f := fun x => { x with hand := x.hand.erase (normalize_card raw),
                            played_card := some (normalize_card raw) })
    hall hfind (by simp [truthy, hc])
  have hgps : truthy gp.played_card = false := by rw [hplayed]; rfl
  simp [play_card, hfind, hstatus, hgps, hmem, hfilter]

/-- C8: a successful play after which fewer than two seats hold a pending
`played_card` (here: the round's first play — no seat had a pending card
before the call) returns the waiting acknowledgment and leaves
`current_round`, every player's score, and the game status unchanged; only
the acting seat's row changes and one `Move` row is appended (seats bound
to other players survive unchanged, and the seat count is preserved). -/
theorem play_waiting_frame (s : GameState) (pid : Nat) (raw : String)
    (gp : GamePlayer)
    (hfind : findSeat s.seats pid = some gp)
    (hstatus : s.status = "in_progress" ∨ s.status = "waiting")
    (hplayed : gp.played_card = none)
    (hmem : normalize_card raw ∈ gp.hand)
    (hc : normalize_card raw ≠ "")
    (hall : ∀ x ∈ s.seats, truthy x.played_card = false) :
    (play_card s pid raw).1 = PlayResult.waiting
    ∧ (play_card s pid raw).2.current_round = s.current_round
    ∧ (play_card s pid raw).2.players = s.players
    ∧ (play_card s pid raw).2.status = s.status
    ∧ (play_card s pid raw).2.moves =
        s.moves ++ [{ player_id := pid, round_number := s.current_round,
                      card_code := normalize_card raw }]
    ∧ (∀ x ∈ s.seats, x.player_id ≠ pid → x ∈ (play_card s pid raw).2.seats)
    ∧ (play_card s pid raw).2.seats.length = s.seats.length := by
  rw [play_card_waiting_eq s pid raw gp hfind hstatus hplayed hmem hc hall]
  refine ⟨rfl, rfl, rfl, rfl, rfl, ?_, ?_⟩
  · intro x hx hne
    exact mem_updateSeat_of_ne hx hne
  · exact updateSeat_length _ _ _

/-- Witness for C8 on `demoState`: player 2 plays `QD` with no opponent
play pending; the call acknowledges with waiting and the frame holds. -/
theorem play_waiting_frame_witness :
    (play_card demoState 2 "QD").1 = PlayResult.waiting
    ∧ (play_card demoState 2 "QD").2.current_round = demoState.current_round
    ∧ (play_card demoState 2 "QD").2.players = demoState.players
    ∧ (play_card demoState 2 "QD").2.status = demoState.status
    ∧ (play_card demoState 2 "QD").2.moves =
        demoState.moves ++ [{ player_id := 2, round_number := demoState.current_round,
                              card_code := normalize_card "QD" }]
    ∧ (∀ x ∈ demoState.seats, x.player_id ≠ 2 → x ∈ (play_card demoState 2 "QD").2.seats)
    ∧ (play_card demoState 2 "QD").2.seats.length = demoState.seats.length :=
  play_waiting_frame demoState 2 "QD"
    { player_id := 2, hand := ["QD", "2S", "7D"], played_card := none }
    (by decide) (Or.inl (by decide)) (by decide) (by decide) (by decide)
    (by decide)

/-- C9: the play operation normalises `card_code` by stripping whitespace
and uppercasing before any check, so a seat holding card `c` can submit it
in lower or mixed case with surrounding spaces: the play succeeds, exactly
`c` is removed from the hand, and the uppercased code is what is stored in
`played_card` and in the appended `Move` row.  (Stated on a round's first
play so that the committed `played_card` is still observable — resolution
would clear it.) -/
theorem play_card_normalizes (s : GameState) (pid : Nat) (raw c : String)
    (gp : GamePlayer)
    (hfind : findSeat s.seats pid = some gp)
    (hstatus : s.status = "in_progress" ∨ s.status = "waiting")
    (hplayed : gp.played_card = none)
    (hnorm : normalize_card raw = c)
    (hmem : c ∈ gp.hand) (hc : c ≠ "")
    (hall : ∀ x ∈ s.seats, truthy x.played_card = false) :
    (play_card s pid raw).1 = PlayResult.waiting
    ∧ findSeat (play_card s pid raw).2.seats pid =
        some { gp with hand := gp.hand.erase c, played_card := some c }
    ∧ (play_card s pid raw).2.moves =
        s.moves ++ [{ player_id := pid, round_number := s.current_round,
                      card_code := c }] := by
  subst hnorm
  rw [play_card_waiting_eq s pid raw gp hfind hstatus hplayed hmem hc hall]
  exact ⟨rfl, findSeat_updateSeat (fun x => rfl) hfind, rfl⟩

/-- Witness for C9 on `demoState`: player 1 submits `" as "`; the play
succeeds, the hand loses exactly `AS`, and `AS` (uppercased) is what lands
in `played_card` and the `Move` log. -/
theorem play_card_normalizes_witness :
    (play_card demoState 1 " as ").1 = PlayResult.waiting
    ∧ findSeat (play_card demoState 1 " as ").2.seats 1 =
        some { player_id := 1, hand := ["KH", "7H"], played_card := some "AS" }
    ∧ (play_card demoState 1 " as ").2.moves =
        demoState.moves ++ [{ player_id := 1, round_number := demoState.current_round,
                              card_code := "AS" }] := by
  have h := play_card_normalizes demoState 1 " as " "AS"
    { player_id := 1, hand := ["AS", "KH", "7H"], played_card := none }
    (by decide) (Or.inl (by decide)) (by decide) (by decide) (by decide)
    (by decide) (by decide)
  simpa using h

/-- C2: a resolved round with unequal card values — seat 1 committed `c1`
earlier, seat 2 now plays and triggers resolution — reports the player
holding the strictly greater value as winner, increments exactly that
player's cumulative score (the other stays), increments `current_round` by
1, and returns both players' card values keyed by player id in seat
order. -/
theorem play_resolves_higher_wins (s : GameState) (pid1 pid2 : Nat)
    (g1 g2 : GamePlayer) (pl1 pl2 : PlayerRec) (c1 raw : String)
    (hseats : s.seats = [g1, g2])
    (hpid1 : g1.player_id = pid1) (hpid2 : g2.player_id = pid2)
    (hne : pid1 ≠ pid2)
    (hplayers : s.players = [pl1, pl2])
    (hq1 : pl1.pid = pid1) (hq2 : pl2.pid = pid2)
    (hp1 : g1.played_card = some c1) (hc1 : c1 ≠ "")
    (hp2 : g2.played_card = none)
    (hmem : normalize_card raw ∈ g2.hand)
    (hc2 : normalize_card raw ≠ "")
    (hstatus : s.status = "in_progress" ∨ s.status = "waiting")
    (hval : card_value c1 ≠ card_value (normalize_card raw)) :
    (play_card s pid2 raw).1 =
        PlayResult.resolved
          (some (if card_value (normalize_card raw) < card_value c1
                 then pid1 else pid2))
          (s.current_round + 1)
          [(pid1, card_value c1), (pid2, card_value (normalize_card raw))]
    ∧ (play_card s pid2 raw).2.players.map (fun p => (p.pid, p.score)) =
        [(pid1, pl1.score +
            if card_value (normalize_card raw) < card_value c1 then 1 else 0),
         (pid2, pl2.score +
            if card_value (normalize_card raw) < card_value c1 then 0 else 1)]
    ∧ (play_card s pid2 raw).2.current_round = s.current_round + 1 := by
  have h12 : (g1.player_id == pid2) = false := by
    simp [hpid1]
    exact hne
  have h22 : (g2.player_id == pid2) = true := by simp [hpid2]
  have hq12 : (pl1.pid == pid2) = false := by
    simp [hq1]
    exact hne
  have ht1 : truthy g1.played_card = true := by simp [hp1, truthy, hc1]
  have ht2 : truthy g2.played_card = false := by rw [hp2]; rfl
  have hne2 : pid2 ≠ pid1 := Ne.symm hne
  by_cases hgt : card_value (normalize_card raw) < card_value c1
  · simp [play_card, findSeat, List.find?, hseats, hplayers, h12, h22, hstatus,
      ht1, ht2, hmem, updateSeat, List.filter_cons, hp1, hp2, hc1, truthy, hc2,
      incScore, hq12, hq1, hq2, hgt, hpid1, hpid2, hne, hne2, not_lt_of_gt hgt]
  · have hlt : card_value c1 < card_value (normalize_card raw) :=
      lt_of_le_of_ne (not_lt.mp hgt) hval
    simp [play_card, findSeat, List.find?, hseats, hplayers, h12, h22, hstatus,
      ht1, ht2, hmem, updateSeat, List.filter_cons, hp1, hp2, hc1, truthy, hc2,
      incScore, hq12, hq1, hq2, hgt, hlt, hpid1, hpid2, hne, hne2]

/-- Witness for C2 on `demoState`: seat 1 committed `KH` (13), player 2
plays `QD` (12); player 1 wins, their score becomes 1, player 2's stays 0,
and the round advances from 1 to 2. -/
theorem play_resolves_higher_wins_witness :
    (play_card
      { demoState with
        seats := [{ player_id := 1, hand := ["AS", "7H"], played_card := some "KH" },
                  { player_id := 2, hand := ["QD", "2S", "7D"], played_card := none }] }
      2 "QD").1 =
        PlayResult.resolved (some 1) 2 [(1, 13), (2, 12)]
    ∧ (play_card
      { demoState with
        seats := [{ player_id := 1, hand := ["AS", "7H"], played_card := some "KH" },
                  { player_id := 2, hand := ["QD", "2S", "7D"], played_card := none }] }
      2 "QD").2.players.map (fun p => (p.pid, p.score)) = [(1, 1), (2, 0)] := by
  have h := play_resolves_higher_wins
    { demoState with
      seats := [{ player_id := 1, hand := ["AS", "7H"], played_card := some "KH" },
                { player_id := 2, hand := ["QD", "2S", "7D"], played_card := none }] }
    1 2
    { player_id := 1, hand := ["AS", "7H"], played_card := some "KH" }
    { player_id := 2, hand := ["QD", "2S", "7D"], played_card := none }
    { pid := 1, name := "P1", score := 0 } { pid := 2, name := "P2", score := 0 }
    "KH" "QD"
    (by decide) (by decide) (by decide) (by decide) (by decide) (by decide)
    (by decide) (by decide) (by decide) (by decide) (by decide) (by decide)
    (Or.inl (by decide)) (by decide)
  refine ⟨?_, ?_⟩
  · have h1 := h.1
    simpa using h1
  · have h2 := h.2.1
    simpa using h2

/-- C3: a resolved round with equal card values reports no winner, changes
no score (the whole players table is untouched), still increments
`current_round` by 1, and resets both seats' `played_card` to `None`. -/
theorem play_resolves_tie (s : GameState) (pid1 pid2 : Nat)
    (g1 g2 : GamePlayer) (c1 raw : String)
    (hseats : s.seats = [g1, g2])
    (hpid1 : g1.player_id = pid1) (hpid2 : g2.player_id = pid2)
    (hne : pid1 ≠ pid2)
    (hp1 : g1.played_card = some c1) (hc1 : c1 ≠ "")
    (hp2 : g2.played_card = none)
    (hmem : normalize_card raw ∈ g2.hand)
    (hc2 : normalize_card raw ≠ "")
    (hstatus : s.status = "in_progress" ∨ s.status = "waiting")
    (hval : card_value c1 = card_value (normalize_card raw)) :
    (play_card s pid2 raw).1 =
        PlayResult.resolved none (s.current_round + 1)
          [(pid1, card_value c1), (pid2, card_value c1)]
    ∧ (play_card s pid2 raw).2.players = s.players
    ∧ (play_card s pid2 raw).2.current_round = s.current_round + 1
    ∧ (play_card s pid2 raw).2.seats.map GamePlayer.played_card = [none, none] := by
  have h12 : (g1.player_id == pid2) = false := by
    simp [hpid1]
    exact hne
  have h22 : (g2.player_id == pid2) = true := by simp [hpid2]
  have h11 : (g1.player_id == pid1) = true := by simp [hpid1]
  have ht1 : truthy g1.played_card = true := by simp [hp1, truthy, hc1]
  have ht2 : truthy g2.played_card = false := by rw [hp2]; rfl
  have hne2 : pid2 ≠ pid1 := Ne.symm hne
  simp [play_card, findSeat, List.find?, hseats, h12, h22, h11,
    hstatus, ht1, ht2, hmem, updateSeat, List.filter_cons, hp1, hp2, hc1, truthy,
    hc2, hval, lt_irrefl, hpid1, hpid2, hne, hne2]

/-- Witness for C3 on `demoState`: seat 1 committed `7H`, player 2 plays
`7D` (both value 7); no winner, scores untouched, round advances to 2,
both pending cards cleared. -/
theorem play_resolves_tie_witness :
    (play_card
      { demoState with
        seats := [{ player_id := 1, hand := ["AS", "KH"], played_card := some "7H" },
                  { player_id := 2, hand := ["QD", "2S", "7D"], played_card := none }] }
      2 "7D").1 =
        PlayResult.resolved none 2 [(1, 7), (2, 7)]
    ∧ (play_card
      { demoState with
        seats := [{ player_id := 1, hand := ["AS", "KH"], played_card := some "7H" },
                  { player_id := 2, hand := ["QD", "2S", "7D"], played_card := none }] }
      2 "7D").2.players =
        demoState.players
    ∧ (play_card
      { demoState with
        seats := [{ player_id := 1, hand := ["AS", "KH"], played_card := some "7H" },
                  { player_id := 2, hand := ["QD", "2S", "7D"], played_card := none }] }
      2 "7D").2.seats.map GamePlayer.played_card = [none, none] := by
  have h := play_resolves_tie
    { demoState with
      seats := [{ player_id := 1, hand := ["AS", "KH"], played_card := some "7H" },
                { player_id := 2, hand := ["QD", "2S", "7D"], played_card := none }] }
    1 2
    { player_id := 1, hand := ["AS", "KH"], played_card := some "7H" }
    { player_id := 2, hand := ["QD", "2S", "7D"], played_card := none }
    "7H" "7D"
    (by decide) (by decide) (by decide) (by decide) (by decide) (by decide)
    (by decide) (by decide) (by decide) (Or.inl (by decide)) (by decide)
  exact ⟨by simpa using h.1, h.2.1, by simpa using h.2.2.2⟩

/-- C6: round resolution is commutative in submission order.  From a state
where neither of the two seats has played, playing `c1` (seat 1) then `c2`
(seat 2) produces the same round-result payload — same winner, same values
map keyed by player id — and the same final seats, players, status, round
counter and winner field as playing `c2` first and `c1` second; only the
order of the two appended `Move` rows differs (the logs are permutations
of each other). -/
theorem play_order_commutes (s : GameState) (pid1 pid2 : Nat)
    (g1 g2 : GamePlayer) (c1 c2 : String)
    (hseats : s.seats = [g1, g2])
    (hpid1 : g1.player_id = pid1) (hpid2 : g2.player_id = pid2)
    (hne : pid1 ≠ pid2)
    (hp1 : g1.played_card = none) (hp2 : g2.played_card = none)
    (hm1 : c1 ∈ g1.hand) (hm2 : c2 ∈ g2.hand)
    (hn1 : normalize_card c1 = c1) (hn2 : normalize_card c2 = c2)
    (hc1 : c1 ≠ "") (hc2 : c2 ≠ "")
    (hstatus : s.status = "in_progress" ∨ s.status = "waiting") :
    (play_card (play_card s pid1 c1).2 pid2 c2).1 =
      (play_card (play_card s pid2 c2).2 pid1 c1).1
    ∧ (play_card (play_card s pid1 c1).2 pid2 c2).2.seats =
      (play_card (play_card s pid2 c2).2 pid1 c1).2.seats
    ∧ (play_card (play_card s pid1 c1).2 pid2 c2).2.players =
      (play_card (play_card s pid2 c2).2 pid1 c1).2.players
    ∧ (play_card (play_card s pid1 c1).2 pid2 c2).2.status =
      (play_card (play_card s pid2 c2).2 pid1 c1).2.status
    ∧ (play_card (play_card s pid1 c1).2 pid2 c2).2.current_round =
      (play_card (play_card s pid2 c2).2 pid1 c1).2.current_round
    ∧ (play_card (play_card s pid1 c1).2 pid2 c2).2.winner_id =
      (play_card (play_card s pid2 c2).2 pid1 c1).2.winner_id
    ∧ (play_card (play_card s pid1 c1).2 pid2 c2).2.moves.Perm
      (play_card (play_card s pid2 c2).2 pid1 c1).2.moves := by
  have hne2 : pid2 ≠ pid1 := Ne.symm hne
  have h11 : (g1.player_id == pid1) = true := by simp [hpid1]
  have h21 : (g2.player_id == pid1) = false := by
    simp [hpid2]
    exact hne2
  have h12 : (g1.player_id == pid2) = false := by
    simp [hpid1]
    exact hne
  have h22 : (g2.player_id == pid2) = true := by simp [hpid2]
  have htn : truthy none = false := rfl
  have htc1 : truthy (some c1) = true := by simp [truthy, hc1]
  have htc2 : truthy (some c2) = true := by simp [truthy, hc2]
  refine ⟨?_, ?_, ?_, ?_, ?_, ?_, ?_⟩ <;>
  · simp [play_card, findSeat, List.find?, hseats, h11, h21, h12, h22,
      hp1, hp2, htn, htc1, htc2, hn1, hn2, updateSeat, List.filter_cons,
      hpid1, hpid2, hstatus, hm1, hm2, hne, hne2, List.append_assoc]
    try exact List.Perm.append_left _ (List.Perm.swap _ _ _)

/-- A game with both players registered but no seats yet: the starting
point for the join scenarios. -/
def emptyGame : GameState :=
  { status := "waiting", current_round := 1, winner_id := none,
    seats := [],
    players := [{ pid := 1, name := "P1", score := 0 },
                { pid := 2, name := "P2", score := 0 }],
    moves := [] }

/-- Counterexample to C1 as stated: each `join_game` deals from a fresh,
independently shuffled 52-card deck, so the two hands of one game need not
be disjoint.  With the identity permutation as both shuffle outcomes (a
possible result of `random.shuffle`), both seats receive the same five
cards, and `2H` is held by both seats at once. -/
theorem join_hands_overlap_cex :
    (join_game (join_game emptyGame 1 create_deck).2 2 create_deck).2.seats.map
        GamePlayer.hand =
      [["2H", "3H", "4H", "5H", "6H"], ["2H", "3H", "4H", "5H", "6H"]]
    ∧ "2H" ∈ ["2H", "3H", "4H", "5H", "6H"] := by
  constructor
  · decide
  · decide

/-- C1 amended: within one seat no card is duplicated — every `join_game`
call preserves the invariant that each seat's hand is a duplicate-free
list of cards of the 52-card deck (the dealt hand is a 5-card prefix of a
permutation of `create_deck`); hands of *different* seats, however, are
dealt from fresh independent decks and need not be disjoint. -/
theorem join_preserves_hand_invariant (s : GameState) (pid : Nat)
    (d : List String)
    (hperm : d.Perm create_deck)
    (hinv : ∀ gp ∈ s.seats, gp.hand.Nodup ∧ ∀ c ∈ gp.hand, c ∈ create_deck) :
    ∀ gp ∈ (join_game s pid d).2.seats,
      gp.hand.Nodup ∧ ∀ c ∈ gp.hand, c ∈ create_deck := by
  have hnodup : create_deck.Nodup := by decide
  have hdn : d.Nodup := hperm.nodup_iff.mpr hnodup
  unfold join_game
  cases hfp : findPlayer s.players pid with
  | none => exact hinv
  | some _ =>
    cases hfs : findSeat s.seats pid with
    | some _ => exact hinv
    | none =>
      by_cases h2 : 2 <= s.seats.length
      · simp only [h2, if_true]
        exact hinv
      · simp only [h2, if_false]
        intro gp hgp
        simp only [List.mem_append, List.mem_singleton] at hgp
        rcases hgp with hold | rfl
        · exact hinv gp hold
        · constructor
          · exact List.Nodup.sublist (List.take_sublist 5 d) hdn
          · intro c hc
            exact hperm.mem_iff.mp (List.mem_of_mem_take hc)

/-- Witness for the amended C1 on `emptyGame`: player 1 joins with an
unshuffled deck; the dealt seat's hand is duplicate-free and its card `2H`
belongs to the 52-card deck. -/
theorem join_preserves_hand_invariant_witness :
    (create_deck.take 5).Nodup ∧ "2H" ∈ create_deck :=
  have h := join_preserves_hand_invariant emptyGame 1 create_deck
    (List.Perm.refl _) (by intro gp hgp; cases hgp)
    { player_id := 1, hand := create_deck.take 5, played_card := none }
    (by decide)
  ⟨h.1, h.2 "2H" (by decide)⟩

/-- C10: a successful join — existing player, not yet seated, seat count
below 2 — appends exactly one seat whose hand is the 5-card prefix of the
shuffled deck: exactly 5 pairwise-distinct codes, all from the 52-card
deck, with `played_card` initialised to `None`.  The hand always has
exactly 5 cards because each deal slices a full 52-card deck, so an
insufficient-cards failure cannot occur (the code has no such branch:
`deck[:5]` never fails). -/
theorem join_deals_fresh_hand (s : GameState) (pid : Nat) (d : List String)
    (pl : PlayerRec)
    (hperm : d.Perm create_deck)
    (hp : findPlayer s.players pid = some pl)
    (hseat : findSeat s.seats pid = none)
    (hlen : s.seats.length < 2) :
    (join_game s pid d).1 = JoinResult.joined
    ∧ (join_game s pid d).2.seats.getLast? =
        some { player_id := pid, hand := d.take 5, played_card := none }
    ∧ (d.take 5).length = 5
    ∧ (d.take 5).Nodup
    ∧ ∀ c ∈ d.take 5, c ∈ create_deck := by
  have hnodup : create_deck.Nodup := by decide
  have hdn : d.Nodup := hperm.nodup_iff.mpr hnodup
  have hd52 : d.length = 52 := by
    rw [hperm.length_eq]
    decide
  have hnle : ¬ 2 <= s.seats.length := Nat.not_le.mpr hlen
  refine ⟨?_, ?_, ?_, ?_, ?_⟩
  · simp [join_game, hp, hseat, hnle]
  · simp only [join_game, hp, hseat, hnle, if_false]
    exact List.getLast?_concat _
  · simp [List.length_take, hd52]
  · exact List.Nodup.sublist (List.take_sublist 5 d) hdn
  · intro c hc
    exact hperm.mem_iff.mp (List.mem_of_mem_take hc)

/-- Witness for C10 on `emptyGame`: player 1 joins with an unshuffled
deck; the dealt seat holds exactly the first five heart cards, distinct
and from the deck, with no pending play. -/
theorem join_deals_fresh_hand_witness :
    (join_game emptyGame 1 create_deck).1 = JoinResult.joined
    ∧ (join_game emptyGame 1 create_deck).2.seats.getLast? =
        some { player_id := 1, hand := create_deck.take 5, played_card := none }
    ∧ (create_deck.take 5).length = 5
    ∧ (create_deck.take 5).Nodup
    ∧ ∀ c ∈ create_deck.take 5, c ∈ create_deck :=
  join_deals_fresh_hand emptyGame 1 create_deck
    { pid := 1, name := "P1", score := 0 }
    (List.Perm.refl _) (by decide) (by decide) (by decide)

/-- Witness for C6 on `demoState`: plays `KH` (player 1) and `2S`
(player 2) submitted in either order give the same resolution payload and
final state up to `Move`-log order. -/
theorem play_order_commutes_witness :
    (play_card (play_card demoState 1 "KH").2 2 "2S").1 =
      (play_card (play_card demoState 2 "2S").2 1 "KH").1
    ∧ (play_card (play_card demoState 1 "KH").2 2 "2S").2.seats =
      (play_card (play_card demoState 2 "2S").2 1 "KH").2.seats
    ∧ (play_card (play_card demoState 1 "KH").2 2 "2S").2.players =
      (play_card (play_card demoState 2 "2S").2 1 "KH").2.players
    ∧ (play_card (play_card demoState 1 "KH").2 2 "2S").2.status =
      (play_card (play_card demoState 2 "2S").2 1 "KH").2.status
    ∧ (play_card (play_card demoState 1 "KH").2 2 "2S").2.current_round =
      (play_card (play_card demoState 2 "2S").2 1 "KH").2.current_round
    ∧ (play_card (play_card demoState 1 "KH").2 2 "2S").2.winner_id =
      (play_card (play_card demoState 2 "2S").2 1 "KH").2.winner_id
    ∧ (play_card (play_card demoState 1 "KH").2 2 "2S").2.moves.Perm
      (play_card (play_card demoState 2 "2S").2 1 "KH").2.moves :=
  play_order_commutes demoState 1 2
    { player_id := 1, hand := ["AS", "KH", "7H"], played_card := none }
    { player_id := 2, hand := ["QD", "2S", "7D"], played_card := none }
    "KH" "2S"
    (by decide) (by decide) (by decide) (by decide) (by decide) (by decide)
    (by decide) (by decide) (by decide) (by decide) (by decide) (by decide)
    (Or.inl (by decide))

end CardGame
